import Mathlib

/-!
Verification of the LS8 CPU emulator (`cpu.py`): a shallow embedding of the
`CPU` class — its RAM, register file, flag state, ALU and fetch/decode/execute
loop — together with theorems settling the specification's claims about it.

Python semantics captured here:
* list indexing `l[i]` wraps a negative index `i` to `len(l) + i` and raises
  `IndexError` when the (possibly wrapped) index is out of bounds; reads and
  writes through such an index are modelled with `Option`;
* a raised exception aborts the surrounding `run` loop but leaves all
  mutations made before the raise in place, so fallible operations carry the
  state at the moment of the raise;
* `self.flag` starts life as the list `[0]*8` and is later overwritten with a
  scalar by `CMP`, which the sum type `FlagState` records faithfully;
* Python integers are unbounded, so register and RAM cells are `Nat` (every
  value ever stored is non-negative), and the stack pointer is `Int` because
  `sp -= 1` may in principle drive it negative.
-/

set_option maxRecDepth 100000

namespace LS8

/-- Opcode constant `HLT = 0b00000001`. -/
def HLT : Nat := 0b00000001

/-- Opcode constant `PRN = 0b01000111`. -/
def PRN : Nat := 0b01000111

/-- Opcode constant `LDI = 0b10000010`. -/
def LDI : Nat := 0b10000010

/-- Opcode constant `MUL = 0b10100010`. -/
def MUL : Nat := 0b10100010

/-- Opcode constant `ADD = 0b10100000`. -/
def ADD : Nat := 0b10100000

/-- Opcode constant `PUSH = 0b01000101`. -/
def PUSH : Nat := 0b01000101

/-- Opcode constant `POP = 0b01000110`. -/
def POP : Nat := 0b01000110

/-- Opcode constant `CALL = 0b01010000`. -/
def CALL : Nat := 0b01010000

/-- Opcode constant `IRET = 0b00010011` (declared in the source; never dispatched by `run`). -/
def IRET : Nat := 0b00010011

/-- Opcode constant `RET = 0b00010001`. -/
def RET : Nat := 0b00010001

/-- Opcode constant `CMP = 0b10100111`. -/
def CMP : Nat := 0b10100111

/-- Opcode constant `JMP = 0b01010100`. -/
def JMP : Nat := 0b01010100

/-- Opcode constant `JNE = 0b01010110`. -/
def JNE : Nat := 0b01010110

/-- Opcode constant `JEQ = 0b01010101`. -/
def JEQ : Nat := 0b01010101

/-- Resolve a Python list index against a list of length `len`: a value in
`[0, len)` is used as is, a value in `[-len, 0)` wraps to `len + i`, anything
else raises `IndexError` (modelled as `none`). -/
def pyIdx (len : Nat) (i : Int) : Option Nat :=
  if 0 ≤ i ∧ i < (len : Int) then some i.toNat
  else if -(len : Int) ≤ i ∧ i < 0 then some (i + (len : Int)).toNat
  else none

/-- Python list read `l[i]` with Python's index semantics. -/
def pyGet (l : List Nat) (i : Int) : Option Nat :=
  (pyIdx l.length i).bind (fun j => l.get? j)

/-- Python list write `l[i] = v` with Python's index semantics. -/
def pySet (l : List Nat) (i : Int) (v : Nat) : Option (List Nat) :=
  (pyIdx l.length i).map (fun j => l.set j v)

/-- The dynamic type of `self.flag`: `__init__` stores the list `[0] * 8`,
and each `CMP` outcome overwrites it with a scalar integer. -/
inductive FlagState where
  | lst (l : List Nat)
  | num (n : Nat)
deriving DecidableEq

/-- The mutable state of the `CPU` object: `self.ram`, `self.register`,
`self.flag`, `self.pc`, `self.sp`, plus the list of values printed by `PRN`
(the process output stream). -/
structure CPUState where
  ram : List Nat
  register : List Nat
  flag : FlagState
  pc : Nat
  sp : Int
  output : List Nat
deriving DecidableEq

/-- The state built by `CPU.__init__`: 256 zeroed RAM bytes, 8 zeroed
registers, `flag = [0] * 8`, `pc = 0`, `sp = 0xf3`. -/
def initialState : CPUState :=
  { ram := List.replicate 256 0
    register := List.replicate 8 0
    flag := FlagState.lst (List.replicate 8 0)
    pc := 0
    sp := 0xf3
    output := [] }

/-- Outcome of a block of Python statements: normal completion, or an
exception carrying its message and the state at the moment of the raise. -/
inductive PyOutcome where
  | ok (s : CPUState)
  | exn (msg : String) (s : CPUState)
deriving DecidableEq

/-- Sequencing of Python statements: a raised exception skips the rest. -/
def pyThen (r : PyOutcome) (f : CPUState → PyOutcome) : PyOutcome :=
  match r with
  | PyOutcome.ok s => f s
  | PyOutcome.exn m s => PyOutcome.exn m s

/-- The method `CPU.alu(op, reg_a, reg_b)`, translated statement by statement.  The
source is a sequence of three independent `if`s whose final `else` belongs
only to the `if op == 'CMP'` test, so every `op` other than `'CMP'` — the
spec-supported `'ADD'` and `'MUL'` included — falls into the
`raise Exception("Unsupported ALU operation")` arm after performing its
(unreduced, arbitrary-precision) register update. -/
def alu (s : CPUState) (op : String) (reg_a reg_b : Nat) : PyOutcome :=
  pyThen
    (if op = "ADD" then
      match s.register.get? reg_a, s.register.get? reg_b with
      | some a, some b =>
          PyOutcome.ok { s with register := s.register.set reg_a (a + b) }
      | _, _ => PyOutcome.exn "IndexError" s
    else PyOutcome.ok s)
    (fun s1 =>
      pyThen
        (if op = "MUL" then
          match s1.register.get? reg_a, s1.register.get? reg_b with
          | some a, some b =>
              PyOutcome.ok { s1 with register := s1.register.set reg_a (a * b) }
          | _, _ => PyOutcome.exn "IndexError" s1
        else PyOutcome.ok s1)
        (fun s2 =>
          if op = "CMP" then
            match s2.register.get? reg_a, s2.register.get? reg_b with
            | some a, some b =>
                let s3 := if a = b then { s2 with flag := FlagState.num 0b00000001 } else s2
                let s4 := if a < b then { s3 with flag := FlagState.num 0b00000100 } else s3
                let s5 := if a > b then { s4 with flag := FlagState.num 0b00000010 } else s4
                PyOutcome.ok s5
            | _, _ => PyOutcome.exn "IndexError" s2
          else PyOutcome.exn "Unsupported ALU operation" s2))

/-- The method `CPU.ram_read(address)`: bare `self.ram[address]`. -/
def ram_read (s : CPUState) (address : Int) : Option Nat :=
  pyGet s.ram address

/-- The method `CPU.ram_write(address, value)`: bare `self.ram[address] = value`. -/
def ram_write (s : CPUState) (address : Int) (value : Nat) : Option CPUState :=
  (pySet s.ram address value).map (fun ram1 => { s with ram := ram1 })

/-- The method `CPU.flag_check()`: `self.flag == 1` (false on the never-overwritten
initial list). -/
def flag_check (s : CPUState) : Bool :=
  s.flag = FlagState.num 1

/-- Result of one iteration of the `while running` loop in `CPU.run`:
continue with a new state, stop because `HLT` cleared `running`, or abort
with a propagating exception. -/
inductive StepResult where
  | next (s : CPUState)
  | halted (s : CPUState)
  | exn (msg : String) (s : CPUState)
deriving DecidableEq

/-- One iteration of `CPU.run`'s loop: the eager operand fetch
(`ram_read(pc)`, `ram_read(pc+1)`, `ram_read(pc+2)`) followed by the chain of
`if instruction == ...` tests.  The opcode constants are pairwise distinct, so
at most one arm fires; a byte matching no arm leaves the state untouched and
the loop spins.  Exception states record the partial mutations made before
the raise, in source statement order. -/
def step (s : CPUState) : StepResult :=
  match ram_read s s.pc with
  | none => StepResult.exn "IndexError" s
  | some instr =>
    match ram_read s ((s.pc + 1 : Nat) : Int) with
    | none => StepResult.exn "IndexError" s
    | some operand_a =>
      match ram_read s ((s.pc + 2 : Nat) : Int) with
      | none => StepResult.exn "IndexError" s
      | some operand_b =>
        if instr = HLT then StepResult.halted s
        else if instr = CALL then
          let s1 := { s with sp := s.sp - 1 }
          match pySet s1.ram s1.sp (s1.pc + 2) with
          | none => StepResult.exn "IndexError" s1
          | some ram1 =>
            let s2 := { s1 with ram := ram1 }
            match s2.register.get? operand_a with
            | none => StepResult.exn "IndexError" s2
            | some v => StepResult.next { s2 with pc := v }
        else if instr = RET then
          match pyGet s.ram s.sp with
          | none => StepResult.exn "IndexError" s
          | some v => StepResult.next { s with pc := v, sp := s.sp + 1 }
        else if instr = PUSH then
          let s1 := { s with sp := s.sp - 1 }
          match s1.register.get? operand_a with
          | none => StepResult.exn "IndexError" s1
          | some v =>
            match pySet s1.ram s1.sp v with
            | none => StepResult.exn "IndexError" s1
            | some ram1 => StepResult.next { s1 with ram := ram1, pc := s1.pc + 2 }
        else if instr = POP then
          match pyGet s.ram s.sp with
          | none => StepResult.exn "IndexError" s
          | some v =>
            if operand_a < s.register.length then
              StepResult.next { s with register := s.register.set operand_a v
                                       sp := s.sp + 1, pc := s.pc + 2 }
            else StepResult.exn "IndexError" s
        else if instr = LDI then
          if operand_a < s.register.length then
            StepResult.next { s with register := s.register.set operand_a operand_b
                                     pc := s.pc + 3 }
          else StepResult.exn "IndexError" s
        else if instr = MUL then
          match alu s "MUL" operand_a operand_b with
          | PyOutcome.ok s1 => StepResult.next { s1 with pc := s1.pc + 3 }
          | PyOutcome.exn m s1 => StepResult.exn m s1
        else if instr = ADD then
          match alu s "ADD" operand_a operand_b with
          | PyOutcome.ok s1 => StepResult.next { s1 with pc := s1.pc + 3 }
          | PyOutcome.exn m s1 => StepResult.exn m s1
        else if instr = CMP then
          match alu s "CMP" operand_a operand_b with
          | PyOutcome.ok s1 => StepResult.next { s1 with pc := s1.pc + 3 }
          | PyOutcome.exn m s1 => StepResult.exn m s1
        else if instr = JMP then
          match ram_read s ((s.pc + 1 : Nat) : Int) with
          | none => StepResult.exn "IndexError" s
          | some reg_num =>
            match s.register.get? reg_num with
            | none => StepResult.exn "IndexError" s
            | some v => StepResult.next { s with pc := v }
        else if instr = JNE then
          if ¬ flag_check s then
            match s.ram.get? (s.pc + 1) with
            | none => StepResult.exn "IndexError" s
            | some reg_num =>
              match s.register.get? reg_num with
              | none => StepResult.exn "IndexError" s
              | some v => StepResult.next { s with pc := v }
          else StepResult.next { s with pc := s.pc + 2 }
        else if instr = JEQ then
          if flag_check s then
            match s.ram.get? (s.pc + 1) with
            | none => StepResult.exn "IndexError" s
            | some reg_num =>
              match s.register.get? reg_num with
              | none => StepResult.exn "IndexError" s
              | some v => StepResult.next { s with pc := v }
          else StepResult.next { s with pc := s.pc + 2 }
        else if instr = PRN then
          match s.register.get? operand_a with
          | none => StepResult.exn "IndexError" s
          | some v => StepResult.next { s with output := s.output ++ [v], pc := s.pc + 2 }
        else StepResult.next s

/-- Outcome of `CPU.run()` under a fuel bound: termination via `HLT`, abort
via a propagating exception, or fuel exhaustion (the source loop itself has
no bound and simply keeps iterating). -/
inductive RunResult where
  | halted (s : CPUState)
  | exn (msg : String) (s : CPUState)
  | fuelOut (s : CPUState)
deriving DecidableEq

/-- The method `CPU.run()`: iterate `step` until `HLT`, an exception, or fuel runs out. -/
def run : Nat → CPUState → RunResult
  | 0, s => RunResult.fuelOut s
  | fuel + 1, s =>
    match step s with
    | StepResult.next s1 => run fuel s1
    | StepResult.halted s1 => RunResult.halted s1
    | StepResult.exn m s1 => RunResult.exn m s1

/-- A CPU whose registers were set to `[250, 10]` (remaining registers zero),
the spec's own wraparound example. -/
def regs250 : CPUState :=
  { initialState with register := [250, 10, 0, 0, 0, 0, 0, 0] }

/-- A CPU about to execute `ADD R0, R1` with `register = [250, 10, ...]`. -/
def addProgState : CPUState :=
  { initialState with ram := [ADD, 0, 1] ++ List.replicate 253 0
                      register := [250, 10, 0, 0, 0, 0, 0, 0] }

/-- The flag values an engine can actually hold: the initial `[0] * 8` list,
or one of the three scalars a `CMP` assigns (`1`, `2`, `4`) — the spec's
flag-register invariant. -/
def FlagInv (s : CPUState) : Prop :=
  s.flag = FlagState.lst (List.replicate 8 0) ∨ s.flag = FlagState.num 1 ∨
    s.flag = FlagState.num 2 ∨ s.flag = FlagState.num 4

/-- Whether the Equal condition bit (bit 0 of the flag byte, per the source's
`0b00000001` encoding) is set; all bits of the initial `[0] * 8` are clear. -/
def equalFlag (s : CPUState) : Bool :=
  match s.flag with
  | FlagState.num n => n.testBit 0
  | FlagState.lst _ => false

/-- A CPU with `JEQ R0` at `pc = 0`, `register[0] = 9`, Equal flag set. -/
def jeqState : CPUState :=
  { initialState with ram := [JEQ, 0] ++ List.replicate 254 0
                      register := [9, 0, 0, 0, 0, 0, 0, 0]
                      flag := FlagState.num 1 }

/-- A CPU with `CALL R0` at `pc = 0`, a `RET` at address 3, `register[0] = 3`. -/
def callRetState : CPUState :=
  { initialState with ram := [CALL, 0, 0, RET] ++ List.replicate 252 0
                      register := [3, 0, 0, 0, 0, 0, 0, 0] }

/-- A CPU with `PUSH R0 ; POP R1` at `pc = 0` and `register[0] = 42`. -/
def pushPopState : CPUState :=
  { initialState with ram := [PUSH, 0, POP, 1] ++ List.replicate 252 0
                      register := [42, 0, 0, 0, 0, 0, 0, 0] }

/-- C1: the claim says ADD stores `(250 + 10) % 256 = 4`; the code has no
modulo reduction (and the dangling `else` raises afterwards), so the ALU
leaves `260` in `register[0]`, and MUL likewise leaves the unreduced `2500`. -/
theorem add_stores_unreduced_sum :
    alu regs250 "ADD" 0 1 =
      PyOutcome.exn "Unsupported ALU operation"
        { regs250 with register := [260, 10, 0, 0, 0, 0, 0, 0] } ∧
    alu regs250 "MUL" 0 1 =
      PyOutcome.exn "Unsupported ALU operation"
        { regs250 with register := [2500, 10, 0, 0, 0, 0, 0, 0] } ∧
    (250 + 10) % 256 = 4 ∧ (260 : Nat) ≠ 4 := by
  decide

/-- C2: the claim says the ALU raises only for unsupported operations; in the
code the `else` binds solely to the `if op == 'CMP'` test, so `'ADD'` and
`'MUL'` also end in `raise Exception("Unsupported ALU operation")` (after
mutating the register), while `'CMP'` alone completes normally. -/
theorem alu_raises_even_on_add_and_mul :
    alu initialState "ADD" 0 0 = PyOutcome.exn "Unsupported ALU operation" initialState ∧
    alu initialState "MUL" 0 0 = PyOutcome.exn "Unsupported ALU operation" initialState ∧
    alu initialState "CMP" 0 0 = PyOutcome.ok { initialState with flag := FlagState.num 1 } ∧
    alu initialState "AND" 0 0 = PyOutcome.exn "Unsupported ALU operation" initialState := by
  decide

/-- C3: the claim says an unrecognized opcode is a reported fatal
`InvalidOpcode`; in the code no `if` arm matches (byte `0` at `pc = 0` in the
freshly constructed CPU is no opcode), the state is returned untouched, and
the `while running` loop spins forever — no error, no halt, no `pc` advance. -/
theorem unknown_opcode_spins_silently (fuel : Nat) :
    step initialState = StepResult.next initialState ∧
    run fuel initialState = RunResult.fuelOut initialState := by
  have hstep : step initialState = StepResult.next initialState := by decide
  refine ⟨hstep, ?_⟩
  induction fuel with
  | zero => rfl
  | succ n ih => rw [run, hstep]; exact ih

/-- C8: the claim says memory access fails for every address outside
`[0, 255]`; the code's bare list indexing silently wraps negative addresses,
so `ram_read(-1)` returns the byte at address 255 and `ram_write(-1, 7)`
overwrites it, with no error raised. -/
theorem ram_access_at_negative_address_succeeds :
    ram_read initialState (-1) = some 0 ∧
    ram_write initialState (-1) 7 =
      some { initialState with ram := (List.replicate 256 0).set 255 7 } ∧
    ¬ (0 ≤ (-1 : Int) ∧ (-1 : Int) ≤ 255) := by
  decide

/-- C9: the claim says every register write lands in `[0, 255]`; executing
`ADD R0, R1` on `register = [250, 10, ...]` leaves `260` in `register[0]`
(and the dangling-`else` exception aborts the run), breaking the 8-bit
invariant. -/
theorem add_exec_breaks_byte_invariant :
    step addProgState =
      StepResult.exn "Unsupported ALU operation"
        { addProgState with register := [260, 10, 0, 0, 0, 0, 0, 0] } ∧
    ¬ (260 ≤ 255) := by
  decide

/-- Sequencing a normally-completed block runs the continuation. -/
@[simp] theorem pyThen_ok (s : CPUState) (f : CPUState → PyOutcome) :
    pyThen (PyOutcome.ok s) f = f s := rfl

/-- A non-negative in-range Python index resolves to itself. -/
theorem pyIdx_nonneg (len : Nat) (i : Int) (h0 : 0 ≤ i) (h : i < (len : Int)) :
    pyIdx len i = some i.toNat := if_pos ⟨h0, h⟩

/-- On a natural-number index, the Python list read is plain `List.get?`. -/
theorem pyGet_natCast (l : List Nat) (i : Nat) : pyGet l (i : Int) = l.get? i := by
  unfold pyGet pyIdx
  by_cases h : i < l.length
  · rw [if_pos ⟨Int.natCast_nonneg i, by exact_mod_cast h⟩]
    simp
  · rw [if_neg (by omega), if_neg (by omega)]
    exact (List.get?_eq_none.mpr (by omega)).symm

/-- On a non-negative in-range index, the Python list read is `List.get?`
at `toNat`. -/
theorem pyGet_toNat (l : List Nat) (i : Int) (h0 : 0 ≤ i) (h : i < (l.length : Int)) :
    pyGet l i = l.get? i.toNat := by
  unfold pyGet
  rw [pyIdx_nonneg _ _ h0 h]
  rfl

/-- On a non-negative in-range index, the Python list write is `List.set`
at `toNat`. -/
theorem pySet_toNat (l : List Nat) (i : Int) (v : Nat) (h0 : 0 ≤ i) (h : i < (l.length : Int)) :
    pySet l i v = some (l.set i.toNat v) := by
  unfold pySet
  rw [pyIdx_nonneg _ _ h0 h]
  rfl

/-- Dispatch of one loop iteration whose fetched opcode is `JEQ`. -/
theorem step_jeq (s : CPUState) (n w : Nat)
    (hi : s.ram.get? s.pc = some JEQ)
    (hn : s.ram.get? (s.pc + 1) = some n)
    (hw : s.ram.get? (s.pc + 2) = some w) :
    step s =
      (if flag_check s then
        match s.register.get? n with
        | none => StepResult.exn "IndexError" s
        | some v => StepResult.next { s with pc := v }
      else StepResult.next { s with pc := s.pc + 2 }) := by
  unfold step ram_read
  rw [pyGet_natCast, pyGet_natCast, pyGet_natCast, hi, hn, hw]
  rfl

/-- Dispatch of one loop iteration whose fetched opcode is `JNE`. -/
theorem step_jne (s : CPUState) (n w : Nat)
    (hi : s.ram.get? s.pc = some JNE)
    (hn : s.ram.get? (s.pc + 1) = some n)
    (hw : s.ram.get? (s.pc + 2) = some w) :
    step s =
      (if ¬ flag_check s then
        match s.register.get? n with
        | none => StepResult.exn "IndexError" s
        | some v => StepResult.next { s with pc := v }
      else StepResult.next { s with pc := s.pc + 2 }) := by
  unfold step ram_read
  rw [pyGet_natCast, pyGet_natCast, pyGet_natCast, hi, hn, hw]
  rfl

/-- Dispatch of one loop iteration whose fetched opcode is `CALL`. -/
theorem step_call (s : CPUState) (rn w : Nat)
    (hi : s.ram.get? s.pc = some CALL)
    (hn : s.ram.get? (s.pc + 1) = some rn)
    (hw : s.ram.get? (s.pc + 2) = some w) :
    step s =
      (match pySet s.ram (s.sp - 1) (s.pc + 2) with
       | none => StepResult.exn "IndexError" { s with sp := s.sp - 1 }
       | some ram1 =>
         match s.register.get? rn with
         | none => StepResult.exn "IndexError" { s with sp := s.sp - 1, ram := ram1 }
         | some v => StepResult.next { s with sp := s.sp - 1, ram := ram1, pc := v }) := by
  unfold step ram_read
  rw [pyGet_natCast, pyGet_natCast, pyGet_natCast, hi, hn, hw]
  rfl

/-- Dispatch of one loop iteration whose fetched opcode is `RET`. -/
theorem step_ret (s : CPUState) (a b : Nat)
    (hi : s.ram.get? s.pc = some RET)
    (ha : s.ram.get? (s.pc + 1) = some a)
    (hb2 : s.ram.get? (s.pc + 2) = some b) :
    step s =
      (match pyGet s.ram s.sp with
       | none => StepResult.exn "IndexError" s
       | some v => StepResult.next { s with pc := v, sp := s.sp + 1 }) := by
  unfold step ram_read
  rw [pyGet_natCast, pyGet_natCast, pyGet_natCast, hi, ha, hb2]
  rfl

/-- Dispatch of one loop iteration whose fetched opcode is `PUSH`. -/
theorem step_push (s : CPUState) (rn w : Nat)
    (hi : s.ram.get? s.pc = some PUSH)
    (hn : s.ram.get? (s.pc + 1) = some rn)
    (hw : s.ram.get? (s.pc + 2) = some w) :
    step s =
      (match s.register.get? rn with
       | none => StepResult.exn "IndexError" { s with sp := s.sp - 1 }
       | some v =>
         match pySet s.ram (s.sp - 1) v with
         | none => StepResult.exn "IndexError" { s with sp := s.sp - 1 }
         | some ram1 =>
           StepResult.next { s with sp := s.sp - 1, ram := ram1, pc := s.pc + 2 }) := by
  unfold step ram_read
  rw [pyGet_natCast, pyGet_natCast, pyGet_natCast, hi, hn, hw]
  rfl

/-- Dispatch of one loop iteration whose fetched opcode is `POP`. -/
theorem step_pop (s : CPUState) (rm w : Nat)
    (hi : s.ram.get? s.pc = some POP)
    (hn : s.ram.get? (s.pc + 1) = some rm)
    (hw : s.ram.get? (s.pc + 2) = some w) :
    step s =
      (match pyGet s.ram s.sp with
       | none => StepResult.exn "IndexError" s
       | some v =>
         if rm < s.register.length then
           StepResult.next
             { s with register := s.register.set rm v, sp := s.sp + 1, pc := s.pc + 2 }
         else StepResult.exn "IndexError" s) := by
  unfold step ram_read
  rw [pyGet_natCast, pyGet_natCast, pyGet_natCast, hi, hn, hw]
  rfl

/-- C4: for any two register values, CMP overwrites the whole flag state with
exactly one of the scalars `1` (Equal, bit 0), `4` (LessThan, bit 2) or `2`
(GreaterThan, bit 1) matching the three-way comparison — so exactly one of
the three condition bits is set and the other two are clear, regardless of
the prior flag state, and the operation completes without raising. -/
theorem cmp_sets_exactly_one_flag (s : CPUState) (reg_a reg_b a b : Nat)
    (ha : s.register.get? reg_a = some a) (hb : s.register.get? reg_b = some b) :
    alu s "CMP" reg_a reg_b =
      PyOutcome.ok
        { s with flag := FlagState.num (if a = b then 1 else if a < b then 4 else 2) } ∧
    ((if a = b then (1 : Nat) else if a < b then 4 else 2).testBit 0 = true ↔ a = b) ∧
    ((if a = b then (1 : Nat) else if a < b then 4 else 2).testBit 2 = true ↔ a < b) ∧
    ((if a = b then (1 : Nat) else if a < b then 4 else 2).testBit 1 = true ↔ b < a) := by
  have hA : ¬ ("CMP" : String) = "ADD" := by decide
  have hM : ¬ ("CMP" : String) = "MUL" := by decide
  constructor
  · unfold alu
    rw [if_neg hA, pyThen_ok, if_neg hM, pyThen_ok, if_pos (rfl : ("CMP" : String) = "CMP"),
      ha, hb]
    simp only []
    split_ifs <;> first | rfl | (exfalso; omega)
  · rcases Nat.lt_trichotomy a b with h | h | h
    · have hf : (if a = b then (1 : Nat) else if a < b then 4 else 2) = 4 := by
        rw [if_neg (Nat.ne_of_lt h), if_pos h]
      rw [hf]
      exact ⟨iff_of_false (by decide) (Nat.ne_of_lt h), iff_of_true (by decide) h,
        iff_of_false (by decide) (Nat.lt_asymm h)⟩
    · have hf : (if a = b then (1 : Nat) else if a < b then 4 else 2) = 1 := if_pos h
      rw [hf]
      exact ⟨iff_of_true (by decide) h, iff_of_false (by decide) (by omega),
        iff_of_false (by decide) (by omega)⟩
    · have hf : (if a = b then (1 : Nat) else if a < b then 4 else 2) = 2 := by
        rw [if_neg (Nat.ne_of_gt h), if_neg (Nat.lt_asymm h)]
      rw [hf]
      exact ⟨iff_of_false (by decide) (Nat.ne_of_gt h), iff_of_false (by decide) (Nat.lt_asymm h),
        iff_of_true (by decide) h⟩

/-- Witness for C4 at the concrete comparison `CMP R0, R1` on `[250, 10]`. -/
theorem cmp_sets_exactly_one_flag_w :
    alu regs250 "CMP" 0 1 =
      PyOutcome.ok
        { regs250 with
            flag := FlagState.num (if (250 : Nat) = 10 then 1 else if (250 : Nat) < 10 then 4 else 2) } ∧
    ((if (250 : Nat) = 10 then (1 : Nat) else if (250 : Nat) < 10 then 4 else 2).testBit 0 = true ↔
      (250 : Nat) = 10) ∧
    ((if (250 : Nat) = 10 then (1 : Nat) else if (250 : Nat) < 10 then 4 else 2).testBit 2 = true ↔
      (250 : Nat) < 10) ∧
    ((if (250 : Nat) = 10 then (1 : Nat) else if (250 : Nat) < 10 then 4 else 2).testBit 1 = true ↔
      (10 : Nat) < 250) :=
  cmp_sets_exactly_one_flag regs250 0 1 250 10 (by decide) (by decide)

/-- C5: in any engine state satisfying the flag-register invariant, `JEQ Rn`
sets `pc` to `register[Rn]` exactly when the Equal bit is set and otherwise
advances `pc` by 2, and `JNE Rn` does the reverse. -/
theorem jeq_jne_branch_on_equal_flag (s : CPUState) (n v w : Nat)
    (hinv : FlagInv s)
    (hn : s.ram.get? (s.pc + 1) = some n)
    (hw : s.ram.get? (s.pc + 2) = some w)
    (hv : s.register.get? n = some v) :
    (s.ram.get? s.pc = some JEQ →
      step s = StepResult.next { s with pc := if equalFlag s then v else s.pc + 2 }) ∧
    (s.ram.get? s.pc = some JNE →
      step s = StepResult.next { s with pc := if equalFlag s then s.pc + 2 else v }) := by
  have hef : equalFlag s = flag_check s := by
    rcases hinv with hf | hf | hf | hf <;>
      simp only [equalFlag, flag_check, hf] <;> rfl
  constructor
  · intro hi
    rw [step_jeq s n w hi hn hw, hef]
    by_cases hfc : flag_check s = true
    · rw [if_pos hfc, hv, if_pos hfc]
    · rw [if_neg hfc, if_neg hfc]
  · intro hi
    rw [step_jne s n w hi hn hw, hef]
    by_cases hfc : flag_check s = true
    · rw [if_neg (not_not_intro hfc), if_pos hfc]
    · rw [if_pos hfc, hv, if_neg hfc]

/-- Witness for C5 at a concrete state with the Equal flag set. -/
theorem jeq_jne_branch_on_equal_flag_w :
    (jeqState.ram.get? jeqState.pc = some JEQ →
      step jeqState =
        StepResult.next { jeqState with pc := if equalFlag jeqState then 9 else jeqState.pc + 2 }) ∧
    (jeqState.ram.get? jeqState.pc = some JNE →
      step jeqState =
        StepResult.next { jeqState with pc := if equalFlag jeqState then jeqState.pc + 2 else 9 }) :=
  jeq_jne_branch_on_equal_flag jeqState 0 9 0 (Or.inr (Or.inl rfl)) (by decide) (by decide)
    (by decide)

/-- C6: `CALL Rn` decrements `sp`, stores the return address `pc + 2` at the
new `memory[sp]`, and jumps to `register[Rn]`; the `RET` found there then
restores `pc` to `pc + 2` and `sp` to its pre-CALL value. -/
theorem call_then_ret_returns (s : CPUState) (rn target : Nat)
    (hlen : s.ram.length = 256)
    (hpc : s.pc + 2 < 256)
    (hi : s.ram.get? s.pc = some CALL)
    (hn : s.ram.get? (s.pc + 1) = some rn)
    (hreg : s.register.get? rn = some target)
    (hsp1 : 1 ≤ s.sp) (hsp2 : s.sp ≤ 256)
    (htg : target + 2 < 256)
    (hret : s.ram.get? target = some RET)
    (hdisj : s.sp - 1 ≠ (target : Int)) :
    ∃ s1 s2,
      step s = StepResult.next s1 ∧
      s1.pc = target ∧ s1.sp = s.sp - 1 ∧ s1.register = s.register ∧
      ram_read s1 s1.sp = some (s.pc + 2) ∧
      step s1 = StepResult.next s2 ∧
      s2.pc = s.pc + 2 ∧ s2.sp = s.sp := by
  have hj : (s.sp - 1).toNat < s.ram.length := by omega
  have hw : s.ram.get? (s.pc + 2) = some (s.ram.get ⟨s.pc + 2, by omega⟩) :=
    List.get?_eq_get (by omega)
  have hset : pySet s.ram (s.sp - 1) (s.pc + 2) =
      some (s.ram.set (s.sp - 1).toNat (s.pc + 2)) :=
    pySet_toNat _ _ _ (by omega) (by omega)
  have h1 : step s =
      StepResult.next
        { s with sp := s.sp - 1, ram := s.ram.set (s.sp - 1).toNat (s.pc + 2), pc := target } := by
    rw [step_call s rn _ hi hn hw, hset]
    dsimp only []
    rw [hreg]
  have hf0 : (s.ram.set (s.sp - 1).toNat (s.pc + 2)).get? target = some RET := by
    rw [List.get?_set_of_lt' _ _ hj, if_neg (by omega)]
    exact hret
  have hf1 : (s.ram.set (s.sp - 1).toNat (s.pc + 2)).get? (target + 1) =
      some ((s.ram.set (s.sp - 1).toNat (s.pc + 2)).get
        ⟨target + 1, by rw [List.length_set]; omega⟩) :=
    List.get?_eq_get (by rw [List.length_set]; omega)
  have hf2 : (s.ram.set (s.sp - 1).toNat (s.pc + 2)).get? (target + 2) =
      some ((s.ram.set (s.sp - 1).toNat (s.pc + 2)).get
        ⟨target + 2, by rw [List.length_set]; omega⟩) :=
    List.get?_eq_get (by rw [List.length_set]; omega)
  have hread : pyGet (s.ram.set (s.sp - 1).toNat (s.pc + 2)) (s.sp - 1) = some (s.pc + 2) := by
    rw [pyGet_toNat _ _ (by omega) (by rw [List.length_set]; omega),
      List.get?_set_of_lt' _ _ hj, if_pos rfl]
  have h2 := step_ret
    { s with sp := s.sp - 1, ram := s.ram.set (s.sp - 1).toNat (s.pc + 2), pc := target }
    _ _ hf0 hf1 hf2
  dsimp only [] at h2
  rw [hread] at h2
  refine ⟨_, _, h1, rfl, rfl, rfl, hread, h2, rfl, ?_⟩
  show s.sp - 1 + 1 = s.sp
  omega

/-- Witness for C6 at a concrete `CALL R0 ; ... ; RET` program. -/
theorem call_then_ret_returns_w :
    ∃ s1 s2,
      step callRetState = StepResult.next s1 ∧
      s1.pc = 3 ∧ s1.sp = callRetState.sp - 1 ∧ s1.register = callRetState.register ∧
      ram_read s1 s1.sp = some (callRetState.pc + 2) ∧
      step s1 = StepResult.next s2 ∧
      s2.pc = callRetState.pc + 2 ∧ s2.sp = callRetState.sp :=
  call_then_ret_returns callRetState 0 3 (by decide) (by decide) (by decide) (by decide)
    (by decide) (by decide) (by decide) (by decide) (by decide) (by decide)

/-- C7: `PUSH Rn` followed by `POP Rm` leaves `register[Rm]` holding the
pushed value and returns `sp` to its pre-PUSH value. -/
theorem push_then_pop_round_trip (s : CPUState) (rn rm v : Nat)
    (hlen : s.ram.length = 256) (hrlen : s.register.length = 8)
    (hpc : s.pc + 4 < 256)
    (hpush : s.ram.get? s.pc = some PUSH)
    (hrn : s.ram.get? (s.pc + 1) = some rn)
    (hpop : s.ram.get? (s.pc + 2) = some POP)
    (hrm : s.ram.get? (s.pc + 3) = some rm)
    (hv : s.register.get? rn = some v)
    (hrm8 : rm < 8)
    (hsp1 : 1 ≤ s.sp) (hsp2 : s.sp ≤ 256)
    (hd2 : s.sp - 1 ≠ ((s.pc + 2 : Nat) : Int))
    (hd3 : s.sp - 1 ≠ ((s.pc + 3 : Nat) : Int)) :
    ∃ s1 s2,
      step s = StepResult.next s1 ∧ step s1 = StepResult.next s2 ∧
      s2.register.get? rm = some v ∧ s2.sp = s.sp ∧ s2.pc = s.pc + 4 := by
  have hj : (s.sp - 1).toNat < s.ram.length := by omega
  have hset : pySet s.ram (s.sp - 1) v = some (s.ram.set (s.sp - 1).toNat v) :=
    pySet_toNat _ _ _ (by omega) (by omega)
  have h1 : step s =
      StepResult.next
        { s with sp := s.sp - 1, ram := s.ram.set (s.sp - 1).toNat v, pc := s.pc + 2 } := by
    rw [step_push s rn POP hpush hrn hpop, hv]
    dsimp only []
    rw [hset]
  have e1 : s.pc + 2 + 1 = s.pc + 3 := by omega
  have hf0 : (s.ram.set (s.sp - 1).toNat v).get? (s.pc + 2) = some POP := by
    rw [List.get?_set_of_lt' _ _ hj, if_neg (by omega)]
    exact hpop
  have hf1 : (s.ram.set (s.sp - 1).toNat v).get? (s.pc + 2 + 1) = some rm := by
    rw [e1, List.get?_set_of_lt' _ _ hj, if_neg (by omega)]
    exact hrm
  have hf2 : (s.ram.set (s.sp - 1).toNat v).get? (s.pc + 2 + 2) =
      some ((s.ram.set (s.sp - 1).toNat v).get
        ⟨s.pc + 2 + 2, by rw [List.length_set]; omega⟩) :=
    List.get?_eq_get (by rw [List.length_set]; omega)
  have hread : pyGet (s.ram.set (s.sp - 1).toNat v) (s.sp - 1) = some v := by
    rw [pyGet_toNat _ _ (by omega) (by rw [List.length_set]; omega),
      List.get?_set_of_lt' _ _ hj, if_pos rfl]
  have h2 := step_pop
    { s with sp := s.sp - 1, ram := s.ram.set (s.sp - 1).toNat v, pc := s.pc + 2 }
    rm _ hf0 hf1 hf2
  dsimp only [] at h2
  rw [hread] at h2
  dsimp only [] at h2
  rw [if_pos (show rm < s.register.length by omega)] at h2
  refine ⟨_, _, h1, h2, ?_, ?_, ?_⟩
  · show (s.register.set rm v).get? rm = some v
    rw [List.get?_set_of_lt' _ _ (show rm < s.register.length by omega), if_pos rfl]
  · show s.sp - 1 + 1 = s.sp
    omega
  · show s.pc + 2 + 2 = s.pc + 4
    omega

/-- Witness for C7 at a concrete `PUSH R0 ; POP R1` program with value 42. -/
theorem push_then_pop_round_trip_w :
    ∃ s1 s2,
      step pushPopState = StepResult.next s1 ∧ step s1 = StepResult.next s2 ∧
      s2.register.get? 1 = some 42 ∧ s2.sp = pushPopState.sp ∧ s2.pc = pushPopState.pc + 4 :=
  push_then_pop_round_trip pushPopState 0 1 42 (by decide) (by decide) (by decide) (by decide)
    (by decide) (by decide) (by decide) (by decide) (by decide) (by decide) (by decide)
    (by decide) (by decide)

/-- C10: writing a value to an in-range address and reading it back returns
that value, and every other in-range cell reads exactly as before the write. -/
theorem ram_write_then_read (s : CPUState) (a : Int) (v : Nat)
    (hlen : s.ram.length = 256) (h0 : 0 ≤ a) (h255 : a ≤ 255) :
    ∃ s1, ram_write s a v = some s1 ∧ ram_read s1 a = some v ∧
      ∀ b : Int, 0 ≤ b → b ≤ 255 → b ≠ a → ram_read s1 b = ram_read s b := by
  have hlt : a.toNat < s.ram.length := by omega
  have hlen1 : (s.ram.set a.toNat v).length = s.ram.length := List.length_set ..
  refine ⟨{ s with ram := s.ram.set a.toNat v }, ?_, ?_, ?_⟩
  · unfold ram_write
    rw [pySet_toNat _ _ _ h0 (by omega)]
    rfl
  · show pyGet (s.ram.set a.toNat v) a = some v
    rw [pyGet_toNat _ _ h0 (by rw [hlen1]; omega)]
    rw [List.get?_set_of_lt' _ _ hlt, if_pos rfl]
  · intro b hb0 hb255 hbne
    have hne : a.toNat ≠ b.toNat := by omega
    show pyGet (s.ram.set a.toNat v) b = pyGet s.ram b
    rw [pyGet_toNat _ _ hb0 (by rw [hlen1]; omega),
      pyGet_toNat _ _ hb0 (by omega),
      List.get?_set_of_lt' _ _ hlt, if_neg hne]

/-- Witness for C10 at address 5 and value 77 on the fresh CPU. -/
theorem ram_write_then_read_w :
    ∃ s1, ram_write initialState 5 77 = some s1 ∧ ram_read s1 5 = some 77 ∧
      ∀ b : Int, 0 ≤ b → b ≤ 255 → b ≠ 5 → ram_read s1 b = ram_read initialState b :=
  ram_write_then_read initialState 5 77 (by decide) (by decide) (by decide)

end LS8
